import Mathlib

/-!
Shallow embedding of the request-signing and call-dispatch subsystem of
the `rackspace_api` client (`rackspace_api.py`), together with theorems
settling the specification claims about it.

Modelling conventions:

* The embedding follows the Python 2 execution semantics of the module.
  The module's own Python 3 import branch does not import `Request`
  (only the `urllib2` branch does), and under Python 3 the byte/str mix
  at the signature join would fail on every call, so Python 2 is the
  only interpreter under which the module functions; it is also the
  dialect the code was written for (`urllib2`, `time.clock`).
  A Python 2 `str` (a byte string) is modelled as a Lean `String`.
* Machine integers are modelled as `Nat` with explicit `% 2 ^ 32`
  reductions where 32-bit overflow matters (SHA-1).
* Ambient effects are parameters: the wall-clock timestamp is an
  argument, and the behaviour of the network is an explicit
  `ServerResponse` value describing what the server does.
* Behaviour of the Python standard library that the code calls is
  modelled from the library's documented semantics and noted at each
  definition (`urlencode`/`quote_plus`, `hashlib.sha1`,
  `base64.b64encode`, `json.loads`, the `urllib2` opener and its
  exception hierarchy).
-/

set_option autoImplicit false

/-- Values a caller can put in the parameter dictionary passed to
`Connection._call`: Python `str`, `int`, `None`, or a list of strings. -/
inductive PyVal where
  | str (s : String)
  | int (n : Int)
  | none
  | listStr (xs : List String)
  deriving DecidableEq, Repr

/-- A Python dictionary of request parameters, modelled as an
association list (keys are unique in a Python dict; no theorem below
depends on duplicate-key behaviour). -/
abbrev Params := List (String × PyVal)

/-- First value stored under key `k` (Python `params.get(k)`,
yielding `None`, i.e. `Option.none`, when the key is missing). -/
def pget : Params → String → Option PyVal
  | [], _ => Option.none
  | (k', v) :: t, k => if k' = k then some v else pget t k

/-- Removal of key `k` (Python `del params[k]`). -/
def pdel : Params → String → Params
  | [], _ => []
  | (k', v) :: t, k => if k' = k then pdel t k else (k', v) :: pdel t k

theorem pget_pdel_self (ps : Params) (k : String) : pget (pdel ps k) k = Option.none := by
  induction ps with
  | nil => rfl
  | cons hd t ih =>
    obtain ⟨k', v⟩ := hd
    by_cases h : k' = k <;> simp [pdel, pget, h, ih]

theorem pget_pdel_ne (ps : Params) (k k' : String) (h : k ≠ k') :
    pget (pdel ps k') k = pget ps k := by
  induction ps with
  | nil => rfl
  | cons hd t ih =>
    obtain ⟨k0, v⟩ := hd
    by_cases h0 : k0 = k'
    · have hk : ¬ k' = k := fun hh => h hh.symm
      simp [pdel, pget, h0, hk, ih]
    · simp [pdel, pget, h0, ih]

/-- UTF-8 encoding of one character (RFC 3629), as byte values. -/
def utf8EncodeCharNat (c : Char) : List Nat :=
  let n := c.toNat
  if n < 128 then [n]
  else if n < 2048 then [192 ||| (n >>> 6), 128 ||| (n &&& 63)]
  else if n < 65536 then [224 ||| (n >>> 12), 128 ||| ((n >>> 6) &&& 63), 128 ||| (n &&& 63)]
  else [240 ||| (n >>> 18), 128 ||| ((n >>> 12) &&& 63), 128 ||| ((n >>> 6) &&& 63),
    128 ||| (n &&& 63)]

/-- UTF-8 bytes of a string, as `Nat`s (the byte content of a Python 2
`str` holding UTF-8 encoded text, as produced by `.encode('utf-8')`). -/
def utf8Bytes (s : String) : List Nat :=
  (s.toList.map utf8EncodeCharNat).flatten

/-- Bytes that `urllib.quote_plus` leaves unescaped: ASCII letters,
digits, and `_`, `.`, `-` (Python 2 `urllib.always_safe`). -/
def isSafeByte (b : Nat) : Bool :=
  (48 ≤ b && b ≤ 57) || (65 ≤ b && b ≤ 90) || (97 ≤ b && b ≤ 122) ||
    b = 95 || b = 46 || b = 45

/-- Uppercase hexadecimal digit, as used by `urllib.quote`. -/
def hexDigit (n : Nat) : String :=
  String.singleton ("0123456789ABCDEF".toList.getD n '0')

/-- Percent-encoding of one byte under `quote_plus`: space becomes `+`,
safe bytes pass through, everything else becomes `%XX`. -/
def quoteByte (b : Nat) : String :=
  if b = 32 then "+"
  else if isSafeByte b then String.singleton (Char.ofNat b)
  else "%" ++ hexDigit (b / 16) ++ hexDigit (b % 16)

/-- Model of Python `urllib.quote_plus` applied to a UTF-8 text. -/
def quotePlus (s : String) : String :=
  String.join ((utf8Bytes s).map quoteByte)

/-- Simplified Python 2 `repr` of a string: single-quoted, escaping
backslash and single quote (the bodies handled by the theorems below
contain no other characters needing escapes). -/
def pyEscape (s : String) : String :=
  String.join (s.toList.map (fun c =>
    if c = '\\' then "\\\\"
    else if c = Char.ofNat 39 then "\\\x27"
    else String.singleton c))

/-- Python 2 `repr` of a string (simplified, see `pyEscape`). -/
def pyRepr (s : String) : String :=
  "\x27" ++ pyEscape s ++ "\x27"

/-- Python `str(...)` of a parameter value (`str` of a list shows the
`repr` of its elements). -/
def pyStr : PyVal → String
  | .str s => s
  | .int n => toString n
  | .none => "None"
  | .listStr xs => "[" ++ String.intercalate ", " (xs.map pyRepr) ++ "]"

/-- Model of Python `urllib.urlencode(params)` without `doseq`: each
item becomes `quote_plus(str(k)) + '=' + quote_plus(str(v))`, joined
with `&`. -/
def urlencodePlain (ps : Params) : String :=
  String.intercalate "&" (ps.map (fun kv => quotePlus kv.1 ++ "=" ++ quotePlus (pyStr kv.2)))

/-- Model of Python `urllib.urlencode(params, doseq=1)`: a list value
contributes one `k=v` pair per element; every other value is rendered
as by `str` (in particular `None` becomes the text `None`). -/
def urlencodeSeq (ps : Params) : String :=
  String.intercalate "&"
    (ps.map (fun kv =>
      match kv.2 with
      | .listStr xs =>
          String.intercalate "&" (xs.map (fun x => quotePlus kv.1 ++ "=" ++ quotePlus x))
      | v => quotePlus kv.1 ++ "=" ++ quotePlus (pyStr v)))

/-- Encoded value produced by `_utf8_params`: a byte string or a list
of byte strings. -/
inductive EncVal where
  | bytes (s : String)
  | list (xs : List String)
  deriving DecidableEq, Repr

/-- Embedding of `_utf8_params` (source lines 63-77): drops keys whose
value is `None`, stringifies numbers, UTF-8-encodes strings and list
elements. Note that `Connection._call` never invokes this helper. -/
def utf8Params (ps : Params) : List (String × EncVal) :=
  ps.filterMap (fun kv =>
    match kv.2 with
    | .none => Option.none
    | .int n => some (kv.1, .bytes (toString n))
    | .str s => some (kv.1, .bytes s)
    | .listStr xs => some (kv.1, .list xs))

/-- Left-rotation of a 32-bit word by `b` bits. -/
def rotl32 (b n : Nat) : Nat :=
  ((n <<< b) ||| (n >>> (32 - b))) % 4294967296

/-- SHA-1 round function `f` for round `i` (FIPS 180-4). -/
def sha1F (i b c d : Nat) : Nat :=
  if i < 20 then (b &&& c) ||| ((b ^^^ 4294967295) &&& d)
  else if i < 40 then b ^^^ c ^^^ d
  else if i < 60 then (b &&& c) ||| (b &&& d) ||| (c &&& d)
  else b ^^^ c ^^^ d

/-- SHA-1 round constant `K` for round `i`. -/
def sha1K (i : Nat) : Nat :=
  if i < 20 then 0x5A827999
  else if i < 40 then 0x6ED9EBA1
  else if i < 60 then 0x8F1BBCDC
  else 0xCA62C1D6

/-- Big-endian 8-byte encoding of a length in bits. -/
def be64 (n : Nat) : List Nat :=
  [(n >>> 56) &&& 255, (n >>> 48) &&& 255, (n >>> 40) &&& 255, (n >>> 32) &&& 255,
   (n >>> 24) &&& 255, (n >>> 16) &&& 255, (n >>> 8) &&& 255, n &&& 255]

/-- SHA-1 padding: `0x80`, zeros to 56 mod 64, then the bit length. -/
def sha1Pad (msg : List Nat) : List Nat :=
  msg ++ 128 :: List.replicate ((119 - msg.length % 64) % 64) 0 ++ be64 (8 * msg.length)

/-- Splitting a list into chunks of `n` elements (the last chunk may be
shorter). -/
def chunkList {α : Type} (n : Nat) (l : List α) : List (List α) :=
  match l with
  | [] => []
  | x :: xs =>
      if _h : n = 0 then []
      else (x :: xs).take n :: chunkList n ((x :: xs).drop n)
termination_by l.length
decreasing_by
  simp [List.length_drop]
  omega

/-- Big-endian 32-bit word from (up to) four bytes. -/
def wordOfBytes (bs : List Nat) : Nat :=
  bs.foldl (fun acc b => acc * 256 + b) 0

/-- Big-endian bytes of a 32-bit word. -/
def bytesOfWord (w : Nat) : List Nat :=
  [(w >>> 24) &&& 255, (w >>> 16) &&& 255, (w >>> 8) &&& 255, w &&& 255]

/-- SHA-1 message schedule: expands 16 words to 80. The accumulator is
kept newest-first so `w[t-3]`, `w[t-8]`, `w[t-14]`, `w[t-16]` are at
positions 2, 7, 13, 15. -/
def sha1Schedule (ws : List Nat) : List Nat :=
  ((List.range 64).foldl
    (fun acc _ =>
      rotl32 1 ((acc.getD 2 0) ^^^ (acc.getD 7 0) ^^^ (acc.getD 13 0) ^^^ (acc.getD 15 0)) :: acc)
    ws.reverse).reverse

/-- SHA-1 working state. -/
structure Sha1State where
  a : Nat
  b : Nat
  c : Nat
  d : Nat
  e : Nat
  deriving DecidableEq, Repr

/-- One SHA-1 round (FIPS 180-4, step 3 of the compression loop). -/
def sha1Round (st : Sha1State) (iw : Nat × Nat) : Sha1State :=
  let temp := (rotl32 5 st.a + sha1F iw.1 st.b st.c st.d + st.e + sha1K iw.1 + iw.2) % 4294967296
  { a := temp, b := st.a, c := rotl32 30 st.b, d := st.c, e := st.d }

/-- SHA-1 compression of one 64-byte block into the running state. -/
def sha1Block (st : Sha1State) (block : List Nat) : Sha1State :=
  let ws := sha1Schedule ((chunkList 4 block).map wordOfBytes)
  let r := (((List.range 80).zip ws).foldl sha1Round st)
  { a := (st.a + r.a) % 4294967296, b := (st.b + r.b) % 4294967296,
    c := (st.c + r.c) % 4294967296, d := (st.d + r.d) % 4294967296,
    e := (st.e + r.e) % 4294967296 }

/-- SHA-1 initial state. -/
def sha1Init : Sha1State :=
  { a := 0x67452301, b := 0xEFCDAB89, c := 0x98BADCFE, d := 0x10325476, e := 0xC3D2E1F0 }

/-- Model of `hashlib.sha1(msg).digest()`: the 20-byte SHA-1 digest of
a byte sequence (FIPS 180-4). -/
def sha1 (msg : List Nat) : List Nat :=
  let st := (chunkList 64 (sha1Pad msg)).foldl sha1Block sha1Init
  bytesOfWord st.a ++ bytesOfWord st.b ++ bytesOfWord st.c ++ bytesOfWord st.d ++ bytesOfWord st.e

/-- Character `i` of the standard base64 alphabet. -/
def b64Char (i : Nat) : String :=
  String.singleton
    ("ABCDEFGHIJKLMNOPQRSTUVWXYZabcdefghijklmnopqrstuvwxyz0123456789+/".toList.getD i 'A')

/-- Base64 encoding of one chunk of at most three bytes, with padding. -/
def b64Chunk : List Nat → String
  | [b0, b1, b2] =>
      b64Char (b0 >>> 2) ++ b64Char (((b0 &&& 3) <<< 4) ||| (b1 >>> 4)) ++
        b64Char (((b1 &&& 15) <<< 2) ||| (b2 >>> 6)) ++ b64Char (b2 &&& 63)
  | [b0, b1] =>
      b64Char (b0 >>> 2) ++ b64Char (((b0 &&& 3) <<< 4) ||| (b1 >>> 4)) ++
        b64Char ((b1 &&& 15) <<< 2) ++ "="
  | [b0] =>
      b64Char (b0 >>> 2) ++ b64Char ((b0 &&& 3) <<< 4) ++ "=="
  | _ => ""

/-- Model of `base64.b64encode` on a byte sequence (RFC 4648). -/
def base64Encode (bs : List Nat) : String :=
  String.join ((chunkList 3 bs).map b64Chunk)

/-- State of a `Connection` instance (source lines 124-131): credential
keys and domain may be `None`; `host` and the `user_agent` client
identity are fixed at construction. -/
structure Connection where
  user_key : Option String
  secret_key : Option String
  domain : Option String
  host : String
  user_agent : String
  deriving DecidableEq, Repr

/-- Embedding of `Connection.__init__` (source lines 124-131): the host
is hard-coded and the user agent is built from the interpreter version
triple and the literal `?` version part. -/
def mkConnection (uk sk dom : Option String) (vmaj vmin vmic : Nat) : Connection :=
  { user_key := uk, secret_key := sk, domain := dom,
    host := "api.emailsrvr.com",
    user_agent := "Python/" ++ toString vmaj ++ "." ++ toString vmin ++ "." ++ toString vmic ++
      " rackspace_api/?" }

/-- Embedding of `Connection._generateSignature` (source lines 287-293):
empty token when either key is falsy (`None` or empty), otherwise the
base64-encoded SHA-1 digest of the UTF-8 bytes of
`user_key + user_agent + timestamp + secret_key`. -/
def generateSignature (c : Connection) (timestamp : String) : String :=
  match c.user_key, c.secret_key with
  | some u, some s =>
      if u = "" || s = "" then ""
      else base64Encode (sha1 (utf8Bytes (u ++ c.user_agent ++ timestamp ++ s)))
  | _, _ => ""

/-- The HTTP request `_call` hands to the opener: URL, verb, optional
form body and optional `Content-Type` header (source lines 300-327; a
GET is represented in the source as a bare URL string). -/
structure Request where
  url : String
  verb : String
  body : Option String
  contentType : Option String
  deriving DecidableEq, Repr

/-- URL scheme, fixed host and versioned path of source lines 302-305,
314-317 and 323-327. -/
def baseUrl (host path : String) : String :=
  "https://" ++ host ++ "/v1/" ++ path

/-- Embedding of the request-construction block of `Connection._call`
(source lines 300-327). Returns the request together with the parameter
dictionary as left after the in-place `del` mutations. The reserved
`method` key selects PUT or POST and is deleted; inside the PUT branch a
`test` key equal to `y` reroutes the request to
`http://httpbin.org/put` and is deleted too; otherwise the request is a
GET with the parameters urlencoded (with `doseq=1`) into the query
string. -/
def buildRequest (host path : String) (params : Params) : Request × Params :=
  if pget params "method" = some (PyVal.str "PUT") then
    let params1 := pdel params "method"
    if pget params1 "test" = some (PyVal.str "y") then
      let params2 := pdel params1 "test"
      ({ url := "http://httpbin.org/put", verb := "PUT",
         body := some (urlencodePlain params2),
         contentType := some "application/x-www-form-urlencoded" }, params2)
    else
      ({ url := baseUrl host path, verb := "PUT",
         body := some (urlencodePlain params1),
         contentType := some "application/x-www-form-urlencoded" }, params1)
  else if pget params "method" = some (PyVal.str "POST") then
    let params1 := pdel params "method"
    ({ url := baseUrl host path, verb := "POST",
       body := some (urlencodePlain params1),
       contentType := some "application/x-www-form-urlencoded" }, params1)
  else
    ({ url := baseUrl host path ++ "?" ++ urlencodeSeq params, verb := "GET",
       body := Option.none, contentType := Option.none }, params)

/-- What the network does for one call: a plain response, a redirect
(3xx with a `Location` header, whose target then yields the given final
status and body), or a transport-level failure. -/
inductive ServerResponse where
  | plain (code : Nat) (body : String)
  | redirectTo (code : Nat) (body : String) (location : String) (finalCode : Nat) (finalBody : String)
  | fail (reason : String)
  deriving DecidableEq, Repr

/-- Outcome of `opener.open(request)` as seen by the caller: a returned
response, a raised `urllib2.HTTPError`, or a raised `urllib2.URLError`. -/
inductive OpenResult where
  | resp (code : Nat) (body : String)
  | httpError (code : Nat) (body : String)
  | urlError (reason : String)
  deriving DecidableEq, Repr

/-- Membership test of `DontRedirect.redirect_response` (source lines
28-31): true when that method would raise `HTTPError`. The opener never
invokes `redirect_response` — the `HTTPRedirectHandler` hooks called
during error dispatch are `http_error_301/302/303/307` and
`redirect_request` — so this predicate has no effect on `openerOpen`
below. -/
def dontRedirectWouldRaise (code : Nat) : Bool :=
  code = 301 || code = 302 || code = 303 || code = 307

/-- True for the statuses `urllib2.OpenerDirector.open` returns without
entering error dispatch. -/
def is2xx (code : Nat) : Bool :=
  200 ≤ code && code < 300

/-- Model of `build_opener(DontRedirect()).open(request)` (source lines
330, 336), following the documented `urllib2` semantics: a 2xx response
is returned; a 301/302/303/307 response carrying a `Location` header is
followed (the `DontRedirect` instance replaces the default redirect
handler but overrides only `redirect_response`, a method no opener hook
invokes, so it inherits `HTTPRedirectHandler`'s redirect-following
`http_error_30x`/`redirect_request` behaviour) and the target's
response is delivered in its place; every other non-2xx response makes
the default error handler raise `HTTPError`; a transport failure raises
`URLError`. -/
def openerOpen : ServerResponse → OpenResult
  | .plain code body =>
      if is2xx code then .resp code body else .httpError code body
  | .redirectTo code body _ finalCode finalBody =>
      if is2xx code then .resp code body
      else if code = 301 ∨ code = 302 ∨ code = 303 ∨ code = 307 then
        if is2xx finalCode then .resp finalCode finalBody
        else .httpError finalCode finalBody
      else .httpError code body
  | .fail reason => .urlError reason

/-- Model of the success condition of `json.loads`: the body starts
with a brace and its brace/bracket nesting (outside string literals)
closes exactly. A simplified stand-in for the library parser; no
theorem below depends on which bodies it accepts. -/
def jsonScan : List Char → Nat → Bool → Bool → Bool
  | [], depth, inStr, _ => depth = 0 && !inStr
  | ch :: cs, depth, inStr, esc =>
      if inStr then
        if esc then jsonScan cs depth true false
        else if ch = '\\' then jsonScan cs depth true true
        else if ch = '"' then jsonScan cs depth false false
        else jsonScan cs depth true false
      else if ch = '"' then jsonScan cs depth true false
      else if ch = Char.ofNat 123 || ch = '[' then jsonScan cs (depth + 1) false false
      else if ch = Char.ofNat 125 || ch = ']' then
        if depth = 0 then false else jsonScan cs (depth - 1) false false
      else jsonScan cs depth false false

/-- First character of a string is an opening brace (Python
`result.startswith('{')`; false for the empty string). -/
def startsWithLbrace (s : String) : Bool :=
  match s.toList with
  | [] => false
  | ch :: _ => ch = Char.ofNat 123

/-- Body accepted by the `json.loads` model. -/
def jsonValid (s : String) : Bool :=
  startsWithLbrace s && jsonScan s.toList 0 false false

/-- Model of `e.readlines()` on an `HTTPError`: the response body split
into lines, keeping the newline terminators (Python file semantics). -/
def readlinesAux (cur : List Char) : List Char → List String
  | [] => if cur = [] then [] else [String.mk cur.reverse]
  | ch :: cs =>
      if ch = '\n' then String.mk (ch :: cur).reverse :: readlinesAux [] cs
      else readlinesAux (ch :: cur) cs

/-- Lines of a response body as returned by `readlines()`. -/
def pyReadlines (body : String) : List String :=
  readlinesAux [] body.toList

/-- Python 2 `str` of a list of strings, as produced by
`"%s" % e.readlines()`. -/
def pyReprStrList (l : List String) : String :=
  "[" ++ String.intercalate ", " (l.map pyRepr) ++ "]"

/-- Structured data returned by `_call`: the payload parsed by
`json.loads` (kept as the raw body text) or one of the literal strings
built for 202 and non-JSON responses. -/
inductive Data where
  | parsed (raw : String)
  | strData (s : String)
  deriving DecidableEq, Repr

/-- Result of one `_call` as seen by the caller: a returned value, a
raised `RackspaceError (code, message)` (source lines 36-39, code
`None` modelled as `Option.none`), or an exception of some other type
escaping `_call` unnormalized. -/
inductive Outcome where
  | success (data : Data)
  | rackspaceError (code : Option Nat) (msg : String)
  | rawExc (excType : String) (msg : String)
  deriving DecidableEq, Repr

/-- The placeholder literal returned for a 202 response (source line
344). -/
def accepted202 : String := "\x7b\x27response\x27: \x27202 Accepted\x27\x7d"

/-- The wrapper literal returned for a 204 or non-JSON body (source
line 346). -/
def wrapBody (code : Nat) (body : String) : String :=
  "\x7b\x27code\x27: \x27" ++ toString code ++ "\x27, \x27response\x27: \x27" ++ body ++ "\x27\x7d"

/-- Embedding of the `try` block of `Connection._call` (source lines
329-355). Status gate: codes outside 200/202/204 raise
`RackspaceError(500, body)` (re-raised by the bare
`except RackspaceError` clause). Parsing: a non-202 body starting with
a brace goes through `json.loads`, whose failure is a `ValueError`
normalized by the `except Exception` catch-all to
`RackspaceError(None, message)`; a 202 yields the fixed placeholder;
anything else yields the wrapper literal. A raised `HTTPError` is
caught by the `except URLError` clause (in both `urllib2` and
`urllib.error`, `HTTPError` is a subclass of `URLError`, so the later
`except HTTPError` clause of lines 350-351 is unreachable), which
formats `e.readlines()` into `RackspaceError(500, ...)`. A raised
`URLError` is caught by the same clause, but `URLError` has no
`readlines` method, so evaluating the handler's message raises
`AttributeError`, which propagates out of `_call` unnormalized. -/
def dispatchOutcome (server : ServerResponse) : Outcome :=
  match openerOpen server with
  | .resp code body =>
      if ¬ (code = 200 ∨ code = 202 ∨ code = 204) then
        .rackspaceError (some 500) body
      else if code ≠ 202 ∧ startsWithLbrace body = true then
        if jsonValid body then .success (.parsed body)
        else .rackspaceError Option.none "No JSON object could be decoded"
      else if code = 202 then .success (.strData accepted202)
      else .success (.strData (wrapBody code body))
  | .httpError _ body =>
      .rackspaceError (some 500) ("Rackspace response: " ++ pyReprStrList (pyReadlines body))
  | .urlError _ =>
      .rawExc "AttributeError" "\x27URLError\x27 object has no attribute \x27readlines\x27"

/-- Observable trace of one `Connection._call` invocation: the outcome
delivered to the caller, the request handed to the opener (when one was
built), the headers installed on the opener (source lines 331-334), and
the caller's parameter dictionary as `_call` leaves it (the source
mutates it in place). -/
structure CallTrace where
  outcome : Outcome
  request : Option Request
  headers : Option (List (String × String))
  finalParams : Params
  deriving DecidableEq, Repr

/-- Embedding of `Connection._call` (source lines 295-355). The
timestamp (source line 297, `time.strftime` of the wall clock) and the
network behaviour are explicit arguments. When `user_key` is `None`,
the colon join of source line 298 raises `TypeError` before the `try`
block is entered, so nothing is built or transmitted and the parameter
dictionary is left untouched. -/
def callImpl (c : Connection) (host path : String) (params : Params) (timestamp : String)
    (server : ServerResponse) : CallTrace :=
  match c.user_key with
  | Option.none =>
      { outcome := .rawExc "TypeError" "sequence item 0: expected string, NoneType found",
        request := Option.none, headers := Option.none, finalParams := params }
  | some u =>
      let signature := u ++ ":" ++ timestamp ++ ":" ++ generateSignature c timestamp
      let rp := buildRequest host path params
      { outcome := dispatchOutcome server,
        request := some rp.1,
        headers := some [("X-Api-Signature", signature), ("User-Agent", c.user_agent),
          ("Accept-Encoding", "gzip, deflate"), ("Accept", "application/json")],
        finalParams := rp.2 }

/-- The `X-Api-Signature` header value installed on the opener for a
call, when the call got that far. -/
def sigHeader (t : CallTrace) : Option String :=
  t.headers.bind (fun hs => hs.lookup "X-Api-Signature")

/-- Example connection with non-empty credentials, used to instantiate
the universally quantified theorems below at concrete inputs. -/
def connEx : Connection :=
  { user_key := some "u", secret_key := some "s", domain := some "example.com",
    host := "api.emailsrvr.com", user_agent := "UA" }

/-- Claim C1: for every non-empty `user_key` and `secret_key` and every
timestamp string, `_generateSignature` returns the base64 encoding of
the SHA-1 digest of the UTF-8 bytes of
`user_key || clientIdentity || timestamp || secret_key`, and the
`X-Api-Signature` header value transmitted for the request is the
colon-joined triplet `user_key:timestamp:signatureToken` built from the
same timestamp that was signed. -/
theorem c1_signature_and_header
    (c : Connection) (u s : String)
    (hu : c.user_key = some u) (hs : c.secret_key = some s)
    (hu0 : u ≠ "") (hs0 : s ≠ "")
    (host path : String) (params : Params) (ts : String) (server : ServerResponse) :
    generateSignature c ts = base64Encode (sha1 (utf8Bytes (u ++ c.user_agent ++ ts ++ s)))
    ∧ sigHeader (callImpl c host path params ts server) =
        some (u ++ ":" ++ ts ++ ":" ++ generateSignature c ts) := by
  constructor
  · simp [generateSignature, hu, hs, hu0, hs0]
  · simp [callImpl, hu, sigHeader, List.lookup]

/-- Concrete instance of `c1_signature_and_header`. -/
theorem c1_signature_and_header_witness :
    generateSignature connEx "20240101120000" =
        base64Encode (sha1 (utf8Bytes ("u" ++ connEx.user_agent ++ "20240101120000" ++ "s")))
    ∧ sigHeader (callImpl connEx "api.emailsrvr.com" "customers/me/domains" []
          "20240101120000" (.plain 200 "\x7b\x7d")) =
        some ("u" ++ ":" ++ "20240101120000" ++ ":" ++ generateSignature connEx "20240101120000") :=
  c1_signature_and_header connEx "u" "s" rfl rfl (by decide) (by decide)
    "api.emailsrvr.com" "customers/me/domains" [] "20240101120000" (.plain 200 "\x7b\x7d")

/-- Claim C10: `_call` mutates the caller's parameter dictionary in
place: a reserved `method` key valued `PUT` or `POST` is deleted from
it, and in the PUT branch a `test` key valued `y` is deleted as well,
so after the call the caller's dictionary no longer contains those
entries. (Stated for calls that reach the mutation, i.e. with a present
`user_key`; the dictionary left after the call is `finalParams`.) -/
theorem c10_params_mutated_in_place
    (c : Connection) (u : String) (hu : c.user_key = some u)
    (host path : String) (params : Params) (ts : String) (server : ServerResponse) :
    (pget params "method" = some (PyVal.str "PUT") ∨ pget params "method" = some (PyVal.str "POST") →
      pget (callImpl c host path params ts server).finalParams "method" = Option.none)
    ∧ (pget params "method" = some (PyVal.str "PUT") →
        pget (pdel params "method") "test" = some (PyVal.str "y") →
        pget (callImpl c host path params ts server).finalParams "test" = Option.none) := by
  constructor
  · intro h
    rcases h with h | h
    · by_cases h2 : pget (pdel params "method") "test" = some (PyVal.str "y")
      · simp [callImpl, hu, buildRequest, h, h2]
        rw [pget_pdel_ne _ "method" "test" (by decide)]
        exact pget_pdel_self params "method"
      · simp [callImpl, hu, buildRequest, h, h2]
        exact pget_pdel_self params "method"
    · simp [callImpl, hu, buildRequest, h]
      exact pget_pdel_self params "method"
  · intro h h2
    simp [callImpl, hu, buildRequest, h, h2]
    exact pget_pdel_self (pdel params "method") "test"

/-- Concrete instance of `c10_params_mutated_in_place`. -/
theorem c10_params_mutated_in_place_witness :
    pget (callImpl connEx "api.emailsrvr.com" "customers/me/domains"
        [("method", PyVal.str "PUT"), ("test", PyVal.str "y"), ("a", PyVal.str "b")]
        "20240101120000" (.plain 200 "\x7b\x7d")).finalParams "method" = Option.none
    ∧ pget (callImpl connEx "api.emailsrvr.com" "customers/me/domains"
        [("method", PyVal.str "PUT"), ("test", PyVal.str "y"), ("a", PyVal.str "b")]
        "20240101120000" (.plain 200 "\x7b\x7d")).finalParams "test" = Option.none :=
  ⟨(c10_params_mutated_in_place connEx "u" rfl "api.emailsrvr.com" "customers/me/domains"
      [("method", PyVal.str "PUT"), ("test", PyVal.str "y"), ("a", PyVal.str "b")]
      "20240101120000" (.plain 200 "\x7b\x7d")).1 (Or.inl (by decide)),
   (c10_params_mutated_in_place connEx "u" rfl "api.emailsrvr.com" "customers/me/domains"
      [("method", PyVal.str "PUT"), ("test", PyVal.str "y"), ("a", PyVal.str "b")]
      "20240101120000" (.plain 200 "\x7b\x7d")).2 (by decide) (by decide)⟩

/-- Claim C5: a parameter map whose reserved `method` key is `PUT`
(resp. `POST`) makes `_call` issue a PUT (resp. POST) request with a
form-encoded body and `Content-Type: application/x-www-form-urlencoded`,
with the `method` key never appearing among the transmitted parameters;
a map without that key yields a GET whose parameters are
percent-encoded into the URL query string, with no body. -/
theorem c5_verb_convention
    (c : Connection) (u : String) (hu : c.user_key = some u)
    (host path : String) (params : Params) (ts : String) (server : ServerResponse) :
    (pget params "method" = some (PyVal.str "PUT") →
      ∃ r, (callImpl c host path params ts server).request = some r
        ∧ r.verb = "PUT"
        ∧ r.contentType = some "application/x-www-form-urlencoded"
        ∧ r.body = some (urlencodePlain (callImpl c host path params ts server).finalParams)
        ∧ pget (callImpl c host path params ts server).finalParams "method" = Option.none)
    ∧ (pget params "method" = some (PyVal.str "POST") →
      ∃ r, (callImpl c host path params ts server).request = some r
        ∧ r.verb = "POST"
        ∧ r.contentType = some "application/x-www-form-urlencoded"
        ∧ r.body = some (urlencodePlain (callImpl c host path params ts server).finalParams)
        ∧ pget (callImpl c host path params ts server).finalParams "method" = Option.none)
    ∧ (pget params "method" = Option.none →
      ∃ r, (callImpl c host path params ts server).request = some r
        ∧ r.verb = "GET"
        ∧ r.body = Option.none
        ∧ r.contentType = Option.none
        ∧ r.url = baseUrl host path ++ "?" ++ urlencodeSeq params) := by
  refine ⟨?_, ?_, ?_⟩
  · intro h
    by_cases h2 : pget (pdel params "method") "test" = some (PyVal.str "y")
    · refine ⟨{ url := "http://httpbin.org/put", verb := "PUT",
                body := some (urlencodePlain (pdel (pdel params "method") "test")),
                contentType := some "application/x-www-form-urlencoded" }, ?_, rfl, rfl, ?_, ?_⟩
      · simp [callImpl, hu, buildRequest, h, h2]
      · simp [callImpl, hu, buildRequest, h, h2]
      · simp [callImpl, hu, buildRequest, h, h2]
        rw [pget_pdel_ne _ "method" "test" (by decide)]
        exact pget_pdel_self params "method"
    · refine ⟨{ url := baseUrl host path, verb := "PUT",
                body := some (urlencodePlain (pdel params "method")),
                contentType := some "application/x-www-form-urlencoded" }, ?_, rfl, rfl, ?_, ?_⟩
      · simp [callImpl, hu, buildRequest, h, h2]
      · simp [callImpl, hu, buildRequest, h, h2]
      · simp [callImpl, hu, buildRequest, h, h2]
        exact pget_pdel_self params "method"
  · intro h
    refine ⟨{ url := baseUrl host path, verb := "POST",
              body := some (urlencodePlain (pdel params "method")),
              contentType := some "application/x-www-form-urlencoded" }, ?_, rfl, rfl, ?_, ?_⟩
    · simp [callImpl, hu, buildRequest, h]
    · simp [callImpl, hu, buildRequest, h]
    · simp [callImpl, hu, buildRequest, h]
      exact pget_pdel_self params "method"
  · intro h
    refine ⟨{ url := baseUrl host path ++ "?" ++ urlencodeSeq params, verb := "GET",
              body := Option.none, contentType := Option.none }, ?_, rfl, rfl, rfl, rfl⟩
    simp [callImpl, hu, buildRequest, h]

/-- Concrete instance of `c5_verb_convention` (PUT case). -/
theorem c5_verb_convention_witness :
    ∃ r, (callImpl connEx "api.emailsrvr.com" "customers/me/domains"
        [("method", PyVal.str "PUT"), ("a", PyVal.str "b")]
        "20240101120000" (.plain 200 "\x7b\x7d")).request = some r
      ∧ r.verb = "PUT"
      ∧ r.contentType = some "application/x-www-form-urlencoded"
      ∧ r.body = some (urlencodePlain (callImpl connEx "api.emailsrvr.com" "customers/me/domains"
          [("method", PyVal.str "PUT"), ("a", PyVal.str "b")]
          "20240101120000" (.plain 200 "\x7b\x7d")).finalParams)
      ∧ pget (callImpl connEx "api.emailsrvr.com" "customers/me/domains"
          [("method", PyVal.str "PUT"), ("a", PyVal.str "b")]
          "20240101120000" (.plain 200 "\x7b\x7d")).finalParams "method" = Option.none :=
  (c5_verb_convention connEx "u" rfl "api.emailsrvr.com" "customers/me/domains"
      [("method", PyVal.str "PUT"), ("a", PyVal.str "b")]
      "20240101120000" (.plain 200 "\x7b\x7d")).1 (by decide)

/-- Claim C4: for every response delivered to the client without a
transport-layer error (the opener returns responses exactly for 2xx
statuses), the statuses 200, 202, 204 pass the status gate of `_call`
— any error arising afterwards is a body-parse failure carrying a null
code, never the gate's 500 — while every other delivered status raises
`RackspaceError(500, body)` with the raw response body as message. -/
theorem c4_status_gate
    (c : Connection) (u : String) (hu : c.user_key = some u)
    (host path : String) (params : Params) (ts : String) (code : Nat) (body : String)
    (h2xx : 200 ≤ code ∧ code < 300) :
    (¬ (code = 200 ∨ code = 202 ∨ code = 204) →
      (callImpl c host path params ts (.plain code body)).outcome =
        .rackspaceError (some 500) body)
    ∧ ((code = 200 ∨ code = 202 ∨ code = 204) →
      ∀ cc m, (callImpl c host path params ts (.plain code body)).outcome =
          .rackspaceError cc m → cc = Option.none) := by
  constructor
  · intro h
    simp [callImpl, hu, dispatchOutcome, openerOpen, is2xx, h2xx.1, h2xx.2, h]
  · intro h cc m heq
    rcases h with h | h | h <;> subst h <;> revert heq <;>
      simp [callImpl, hu, dispatchOutcome, openerOpen, is2xx] <;>
      split_ifs <;> simp_all

/-- Concrete instance of `c4_status_gate`: a delivered 201 is rejected
with code 500 and the raw body. -/
theorem c4_status_gate_witness :
    (callImpl connEx "api.emailsrvr.com" "customers/me/domains" [] "20240101120000"
        (.plain 201 "created")).outcome = .rackspaceError (some 500) "created" :=
  (c4_status_gate connEx "u" rfl "api.emailsrvr.com" "customers/me/domains" [] "20240101120000"
      201 "created" (by decide)).1 (by decide)

/-- Claim C7 is refuted at this input: with `user_key = "u"` (non-empty)
and `secret_key = ""`, the signature generator does return an empty
token, but the transmitted `X-Api-Signature` header is
`"u:20240101120000:"`, which is not the `":timestamp:"`-shaped triplet
with an empty first segment that the claim asserts. -/
theorem c7_empty_key_header_cex :
    generateSignature { connEx with secret_key := some "" } "20240101120000" = ""
    ∧ sigHeader (callImpl { connEx with secret_key := some "" } "api.emailsrvr.com"
        "customers/me/domains" [] "20240101120000" (.plain 200 "\x7b\x7d")) =
        some "u:20240101120000:"
    ∧ "u:20240101120000:" ≠ ":" ++ "20240101120000" ++ ":" := by
  refine ⟨rfl, rfl, by decide⟩

/-- Claim C7 (amended): for every credential pair whose `user_key` is a
present string `u` and in which either key is empty (or the secret key
absent), the signature generator returns an empty token and the
transmitted `X-Api-Signature` header is `u ++ ":" ++ timestamp ++ ":"`
— a triplet with an empty signature segment, whose first segment is the
(possibly empty) user key rather than always being empty. -/
theorem c7_empty_key_amended
    (c : Connection) (u : String) (hu : c.user_key = some u)
    (hfalsy : u = "" ∨ c.secret_key = some "" ∨ c.secret_key = Option.none)
    (host path : String) (params : Params) (ts : String) (server : ServerResponse) :
    generateSignature c ts = ""
    ∧ sigHeader (callImpl c host path params ts server) = some (u ++ ":" ++ ts ++ ":") := by
  have hsig : generateSignature c ts = "" := by
    rcases hfalsy with h | h | h
    · cases hsk : c.secret_key <;> simp [generateSignature, hu, hsk, h]
    · simp [generateSignature, hu, h]
    · simp [generateSignature, hu, h]
  refine ⟨hsig, ?_⟩
  simp [callImpl, hu, sigHeader, List.lookup, hsig, String.append_empty]

/-- Concrete instance of `c7_empty_key_amended`. -/
theorem c7_empty_key_amended_witness :
    generateSignature { connEx with secret_key := some "" } "20240101120000" = ""
    ∧ sigHeader (callImpl { connEx with secret_key := some "" } "api.emailsrvr.com"
        "customers/me/domains" [] "20240101120000" (.plain 200 "\x7b\x7d")) =
        some ("u" ++ ":" ++ "20240101120000" ++ ":") :=
  c7_empty_key_amended { connEx with secret_key := some "" } "u" rfl (Or.inr (Or.inl rfl))
    "api.emailsrvr.com" "customers/me/domains" [] "20240101120000" (.plain 200 "\x7b\x7d")

/-- Claim C8 is refuted at this input: a `None`-valued key `a` is
dropped by the encoding helper `_utf8_params`, but `_call` never
applies that helper — it urlencodes the caller's map directly, and the
transmitted GET query string contains `a=None`. -/
theorem c8_none_value_transmitted_cex :
    utf8Params [("a", PyVal.none)] = []
    ∧ ((callImpl connEx "api.emailsrvr.com" "customers/me/domains" [("a", PyVal.none)]
        "20240101120000" (.plain 200 "\x7b\x7d")).request.map Request.url) =
        some "https://api.emailsrvr.com/v1/customers/me/domains?a=None" := by
  refine ⟨rfl, by decide⟩

/-- Claim C8 (amended): `_utf8_params` drops every key whose value is
`None`, but `_call` does not use `_utf8_params`; it urlencodes the raw
parameter map, in which a `None`-valued key is transmitted with the
text `None` as its value (here in a GET query string). -/
theorem c8_none_params_amended
    (c : Connection) (u : String) (hu : c.user_key = some u)
    (host path k : String) (ts : String) (server : ServerResponse) :
    utf8Params [(k, PyVal.none)] = []
    ∧ (∃ r, (callImpl c host path [(k, PyVal.none)] ts server).request = some r
        ∧ r.url = baseUrl host path ++ "?" ++ urlencodeSeq [(k, PyVal.none)])
    ∧ urlencodeSeq [(k, PyVal.none)] = quotePlus k ++ "=" ++ "None" := by
  refine ⟨rfl, ?_, ?_⟩
  · have hput : pget [(k, PyVal.none)] "method" ≠ some (PyVal.str "PUT") := by
      by_cases hk : k = "method" <;> simp [pget, hk]
    have hpost : pget [(k, PyVal.none)] "method" ≠ some (PyVal.str "POST") := by
      by_cases hk : k = "method" <;> simp [pget, hk]
    refine ⟨{ url := baseUrl host path ++ "?" ++ urlencodeSeq [(k, PyVal.none)], verb := "GET",
              body := Option.none, contentType := Option.none }, ?_, rfl⟩
    simp [callImpl, hu, buildRequest, hput, hpost]
  · have h1 : quotePlus "None" = "None" := by decide
    simp [urlencodeSeq, pyStr, h1]
    rfl

/-- Concrete instance of `c8_none_params_amended`. -/
theorem c8_none_params_amended_witness :
    utf8Params [("a", PyVal.none)] = []
    ∧ (∃ r, (callImpl connEx "api.emailsrvr.com" "customers/me/domains" [("a", PyVal.none)]
        "20240101120000" (.plain 200 "\x7b\x7d")).request = some r
        ∧ r.url = baseUrl "api.emailsrvr.com" "customers/me/domains" ++ "?" ++
            urlencodeSeq [("a", PyVal.none)])
    ∧ urlencodeSeq [("a", PyVal.none)] = quotePlus "a" ++ "=" ++ "None" :=
  c8_none_params_amended connEx "u" rfl "api.emailsrvr.com" "customers/me/domains" "a"
    "20240101120000" (.plain 200 "\x7b\x7d")

/-- Claim C9 is refuted at this input: with `method=PUT` and `test=y`
in the parameter map, the request `_call` builds goes to the plain-HTTP
debug URL `http://httpbin.org/put` — not over TLS, not to the fixed
host, and without the `/v1/` path. -/
theorem c9_tls_fixed_host_cex :
    ((callImpl connEx "api.emailsrvr.com" "customers/me/domains"
        [("method", PyVal.str "PUT"), ("test", PyVal.str "y")]
        "20240101120000" (.plain 200 "\x7b\x7d")).request.map Request.url) =
        some "http://httpbin.org/put"
    ∧ "http://httpbin.org/put".toList.take 8 ≠ "https://".toList := by
  refine ⟨rfl, by decide⟩

/-- Claim C9 (amended): for every call whose parameter map does not
combine `method=PUT` with `test=y`, the request URL is
`https://<host>/v1/<path>` (followed by the encoded query string for a
GET); the `method=PUT`-with-`test=y` combination instead reroutes the
request to the plain-HTTP debug URL `http://httpbin.org/put`. -/
theorem c9_tls_fixed_host_amended
    (c : Connection) (u : String) (hu : c.user_key = some u)
    (host path : String) (params : Params) (ts : String) (server : ServerResponse)
    (hnot : ¬ (pget params "method" = some (PyVal.str "PUT")
        ∧ pget (pdel params "method") "test" = some (PyVal.str "y"))) :
    ∃ r rest, (callImpl c host path params ts server).request = some r
      ∧ r.url = "https://" ++ host ++ "/v1/" ++ path ++ rest := by
  by_cases h : pget params "method" = some (PyVal.str "PUT")
  · have h2 : ¬ pget (pdel params "method") "test" = some (PyVal.str "y") :=
      fun hy => hnot ⟨h, hy⟩
    refine ⟨{ url := baseUrl host path, verb := "PUT",
              body := some (urlencodePlain (pdel params "method")),
              contentType := some "application/x-www-form-urlencoded" }, "", ?_, ?_⟩
    · simp [callImpl, hu, buildRequest, h, h2]
    · simp [baseUrl, String.append_empty]
  · by_cases h3 : pget params "method" = some (PyVal.str "POST")
    · refine ⟨{ url := baseUrl host path, verb := "POST",
                body := some (urlencodePlain (pdel params "method")),
                contentType := some "application/x-www-form-urlencoded" }, "", ?_, ?_⟩
      · simp [callImpl, hu, buildRequest, h, h3]
      · simp [baseUrl, String.append_empty]
    · refine ⟨{ url := baseUrl host path ++ "?" ++ urlencodeSeq params, verb := "GET",
                body := Option.none, contentType := Option.none },
        "?" ++ urlencodeSeq params, ?_, ?_⟩
      · simp [callImpl, hu, buildRequest, h, h3]
      · simp [baseUrl, String.append_assoc]

/-- Concrete instance of `c9_tls_fixed_host_amended` (GET case). -/
theorem c9_tls_fixed_host_amended_witness :
    ∃ r rest, (callImpl connEx "api.emailsrvr.com" "customers/me/domains"
        [("a", PyVal.str "b")] "20240101120000" (.plain 200 "\x7b\x7d")).request = some r
      ∧ r.url = "https://" ++ "api.emailsrvr.com" ++ "/v1/" ++ "customers/me/domains" ++ rest :=
  c9_tls_fixed_host_amended connEx "u" rfl "api.emailsrvr.com" "customers/me/domains"
    [("a", PyVal.str "b")] "20240101120000" (.plain 200 "\x7b\x7d") (by decide)

/-- Claim C2 fails on the code at these inputs: a transport-level
`URLError` (e.g. connection refused) is caught by the
`except URLError` clause, whose handler evaluates `e.readlines()` — a
method `URLError` does not have — so an `AttributeError` escapes
`_call` unnormalized; and with an absent (`None`) `user_key` the colon
join of line 298 raises a `TypeError` before the `try` block, which
also escapes raw. Both violate the claim that only the normalized
service error ever escapes. -/
theorem c2_raw_exception_escapes :
    (callImpl connEx "api.emailsrvr.com" "customers/me/domains" [] "20240101120000"
        (.fail "urlopen error [Errno 111] Connection refused")).outcome =
      .rawExc "AttributeError" "\x27URLError\x27 object has no attribute \x27readlines\x27"
    ∧ (callImpl { connEx with user_key := Option.none } "api.emailsrvr.com"
        "customers/me/domains" [] "20240101120000" (.plain 200 "\x7b\x7d")).outcome =
      .rawExc "TypeError" "sequence item 0: expected string, NoneType found" :=
  ⟨rfl, rfl⟩

/-- Claim C3 fails on the code at this input: a 404 response with body
`not found` is raised by the transport layer as `HTTPError`, but since
`HTTPError` subclasses `URLError` the earlier `except URLError` clause
catches it first (making the `except HTTPError` clause of lines
350-351 — the behaviour the claim describes — unreachable), so `_call`
raises `RackspaceError(500, "Rackspace response: ['not found']")`
rather than the claimed `RackspaceError(404, "not found")`. -/
theorem c3_http_error_wrong_clause :
    (callImpl connEx "api.emailsrvr.com" "customers/me/domains" [] "20240101120000"
        (.plain 404 "not found")).outcome =
      .rackspaceError (some 500) "Rackspace response: [\x27not found\x27]"
    ∧ (callImpl connEx "api.emailsrvr.com" "customers/me/domains" [] "20240101120000"
        (.plain 404 "not found")).outcome ≠
      .rackspaceError (some 404) "not found" :=
  ⟨rfl, by decide⟩

/-- Claim C6 fails on the code at this input: a 302 redirect carrying a
`Location` header is silently followed — `DontRedirect.redirect_response`
would raise for 302 (first conjunct), but the opener never calls that
method, so the inherited redirect-following behaviour applies and
`_call` returns the redirect target's payload as a success instead of
raising a service error. -/
theorem c6_redirect_followed :
    dontRedirectWouldRaise 302 = true
    ∧ (callImpl connEx "api.emailsrvr.com" "customers/me/domains" [] "20240101120000"
        (.redirectTo 302 "" "https://other.example/elsewhere" 200
          "\x7b\x22domains\x22: []\x7d")).outcome =
      .success (.parsed "\x7b\x22domains\x22: []\x7d") :=
  ⟨rfl, rfl⟩
